import Mathlib

/-!
Shallow embedding of the OptimalSwipe core: the recommendation engine
(src/engine.js) and the persistent-store / file-sync layer (src/storage.js).

Modelling conventions:
* JS numbers are modelled as exact rationals (`ℚ`); all arithmetic claims are
  read over exact arithmetic.
* JS strings are Lean strings; `toLowerCase` lower-cases each character and
  `a.includes(b)` is list-infix containment of the character lists.
* Possibly-`undefined` JS fields are `Option`s, with helpers for JS
  truthiness (`undefined`, `null`, `""`, `0` are falsy).
* A JS `Date` is modelled by its (year, 0-based month, day-of-month) triple,
  ordered lexicographically; this agrees with JS timestamp order on valid
  dates, and every period boundary the code builds is midnight of the first
  day of some month, so day granularity is exact for the `>=` filters used.
-/

namespace OptimalSwipe

/-- JS `a.includes b`: `b` is a contiguous substring of `a`. -/
def strIncludes (a b : String) : Bool := decide (b.toList <:+: a.toList)

/-- JS `toLowerCase`: lower-cases every character. Equal to `String.toLower`
but structurally recursive, so concrete instances evaluate in the kernel. -/
def jsToLower (s : String) : String := ⟨s.data.map Char.toLower⟩

/-- JS falsiness of a possibly-`undefined` string: `undefined`/`null`/`""`. -/
def strOptFalsy : Option String → Bool
  | none => true
  | some s => s == ""

/-- JS truthiness of a possibly-`undefined` string. -/
def strOptTruthy (o : Option String) : Bool := !strOptFalsy o

/-- The date component of a JS `Date`: year, 0-based month, day of month. -/
structure SDate where
  year : Int
  month : Int
  day : Int
deriving DecidableEq, Repr

/-- Timestamp order on dates: lexicographic on (year, month, day). -/
def SDate.le (a b : SDate) : Bool :=
  decide (a.year < b.year ∨ (a.year = b.year ∧
    (a.month < b.month ∨ (a.month = b.month ∧ a.day ≤ b.day))))

/-- One reward tier on a card (fields read by src/engine.js; optional JS
fields are `Option`s). `categoryMatch` is carried in the data model (it
appears in the preset data) although the engine never reads it. -/
structure Reward where
  rate : ℚ
  unit : Option String
  category : String
  categoryMatch : Option String
  merchants : Option String
  method : String
  portal : Option String
  spendingCap : ℚ
  capPeriod : String
  combinedCap : Bool
deriving DecidableEq, Repr

/-- A credit card (fields read by src/engine.js). Ids are JS numbers
(`Date.now() + Math.random()` in src/main.js), hence `ℚ`. -/
structure Card where
  id : ℚ
  name : String
  rewards : List Reward
  rentDayBoost : Bool
  rewardMultiplier : Option ℚ
deriving DecidableEq, Repr

/-- A recorded payment (fields read by src/engine.js). -/
structure Payment where
  cardId : ℚ
  amount : ℚ
  date : SDate
deriving DecidableEq, Repr

/-- The candidate purchase handed to `getRecommendation`. -/
structure PurchaseDetails where
  category : String
  amount : ℚ
  paymentMethod : String
  merchant : Option String
  portal : Option String
deriving DecidableEq, Repr

/-- The `capStatus` field of an option: `'unlimited'`, or the textual
remaining-cap message, modelled by the remaining amount it displays. -/
inductive CapStatus where
  | unlimited
  | remaining (q : ℚ)
deriving DecidableEq, Repr

/-- One entry of the engine's `eligibleOptions` array. -/
structure RecOption where
  card : Card
  reward : Reward
  effectiveRate : ℚ
  cashbackValue : ℚ
  capStatus : CapStatus
  categoryMatch : Bool
  merchantMatch : Bool
  portalMatch : Bool
  unit : String
deriving DecidableEq, Repr

/-- `getSpendingByCardAndPeriod` (src/engine.js:94-119): period-to-date spend
for a card. The `combinedCap` parameter is declared by the source but never
read by its body. The JS `reduce` is a left fold from 0. -/
def getSpendingByCardAndPeriod (now : SDate) (payments : List Payment)
    (cardId : ℚ) (capPeriod : String) (combinedCap : Bool) : ℚ :=
  let startDate? : Option SDate :=
    if capPeriod = "quarterly" then some ⟨now.year, (now.month.fdiv 3) * 3, 1⟩
    else if capPeriod = "annual" then some ⟨now.year, 0, 1⟩
    else if capPeriod = "monthly" then some ⟨now.year, now.month, 1⟩
    else if capPeriod = "statement" then some ⟨now.year, now.month, 1⟩
    else none
  match startDate? with
  | none => 0
  | some startDate =>
      (payments.filter (fun p => decide (p.cardId = cardId) && startDate.le p.date)).foldl
        (fun sum p => sum + p.amount) 0

/-- Payment-method compatibility (src/engine.js:19-21). -/
def methodCompatible (r : Reward) (pd : PurchaseDetails) : Bool :=
  r.method == "any" || r.method == pd.paymentMethod || pd.paymentMethod == "any"

/-- The engine's `merchantMatch` (src/engine.js:26-28): vacuously true when
the purchase names no merchant or the tier lists none; otherwise substring
containment in either direction, case-insensitively. The `getD ""` arguments
are only reached when both strings are truthy, matching the JS
short-circuit. -/
def merchantMatch (r : Reward) (pd : PurchaseDetails) : Bool :=
  strOptFalsy pd.merchant || strOptFalsy r.merchants ||
    strIncludes (jsToLower (r.merchants.getD "")) (jsToLower (pd.merchant.getD "")) ||
    strIncludes (jsToLower (pd.merchant.getD "")) (jsToLower (r.merchants.getD ""))

/-- The engine's `categoryMatch` (src/engine.js:31-32): substring containment
in either direction, case-insensitively. -/
def categoryMatchB (r : Reward) (pd : PurchaseDetails) : Bool :=
  strIncludes (jsToLower r.category) (jsToLower pd.category) ||
    strIncludes (jsToLower pd.category) (jsToLower r.category)

/-- The engine's `portalMatch` (src/engine.js:35). -/
def portalMatchB (r : Reward) (pd : PurchaseDetails) : Bool :=
  strOptFalsy r.portal || r.portal == pd.portal

/-- The candidacy guard of src/engine.js:37. -/
def candidateCond (r : Reward) (pd : PurchaseDetails) : Bool :=
  (categoryMatchB r pd || merchantMatch r pd ||
      strIncludes (jsToLower r.category) "all")
    && portalMatchB r pd

/-- `card.rewardMultiplier || 1.0` (src/engine.js:39; JS: 0 is falsy). -/
def cardMultiplier (card : Card) : ℚ :=
  match card.rewardMultiplier with
  | none => 1
  | some m => if m = 0 then 1 else m

/-- The catch-all lookup of src/engine.js:59: the first tier whose category
text contains "all". -/
def catchAllRate (card : Card) : ℚ :=
  match card.rewards.find? (fun t => strIncludes (jsToLower t.category) "all") with
  | some t => t.rate
  | none => 1

/-- The spent amount computed for a capped tier (src/engine.js:51-53): the
conditional chooses between the two calls of the source, whose last argument
the callee never reads. -/
def tierSpent (now : SDate) (payments : List Payment) (card : Card)
    (r : Reward) : ℚ :=
  if r.combinedCap then
    getSpendingByCardAndPeriod now payments card.id r.capPeriod true
  else
    getSpendingByCardAndPeriod now payments card.id r.capPeriod false

/-- Builds the record pushed onto `eligibleOptions` (src/engine.js:73-83). -/
def mkOption (card : Card) (reward : Reward) (effectiveRate : ℚ)
    (pd : PurchaseDetails) (capStatus : CapStatus) : RecOption :=
  { card := card
    reward := reward
    effectiveRate := effectiveRate
    cashbackValue := pd.amount * (effectiveRate / 100)
    capStatus := capStatus
    categoryMatch := categoryMatchB reward pd
    merchantMatch := merchantMatch reward pd
    portalMatch := portalMatchB reward pd
    unit := if strOptFalsy reward.unit then "cashback" else reward.unit.getD "" }

/-- The body of the inner `forEach` of `getRecommendation`
(src/engine.js:17-84), evaluating one reward tier of one card: `none` when
the tier is skipped (incompatible method, failed candidacy guard, or
exhausted cap), `some` when an option is pushed. -/
def evalReward (now : SDate) (payments : List Payment) (card : Card)
    (reward : Reward) (pd : PurchaseDetails) : Option RecOption :=
  if !methodCompatible reward pd then none
  else if !candidateCond reward pd then none
  else
    let multiplier := cardMultiplier card
    let baseRate := reward.rate * multiplier
    let boostedRate :=
      if decide (now.day = 1) && card.rentDayBoost &&
          !(jsToLower reward.category == "rent")
      then baseRate * 2 else baseRate
    if reward.spendingCap ≠ 0 then
      let spent := tierSpent now payments card reward
      let remaining := reward.spendingCap - spent
      if remaining ≤ 0 then none
      else if remaining < pd.amount then
        let fallbackRate := catchAllRate card * multiplier
        let highRateEarnings := remaining * (reward.rate * multiplier / 100)
        let lowRateEarnings := (pd.amount - remaining) * (fallbackRate / 100)
        let effectiveRate := ((highRateEarnings + lowRateEarnings) / pd.amount) * 100
        some (mkOption card reward effectiveRate pd (CapStatus.remaining remaining))
      else
        some (mkOption card reward boostedRate pd (CapStatus.remaining remaining))
    else
      some (mkOption card reward boostedRate pd CapStatus.unlimited)

/-- The `eligibleOptions` array in push (discovery) order: card list order,
then reward tier order within a card (src/engine.js:12-86). -/
def eligibleOptions (now : SDate) (cards : List Card) (payments : List Payment)
    (pd : PurchaseDetails) : List RecOption :=
  cards.flatMap (fun card =>
    if card.rewards.isEmpty then []
    else card.rewards.filterMap (fun r => evalReward now payments card r pd))

/-- The JS stable-sort order induced by the comparator
`(a, b) => b.cashbackValue - a.cashbackValue`: a stays before b exactly when
the comparator is ≤ 0. -/
def recLE (a b : RecOption) : Bool := decide (b.cashbackValue ≤ a.cashbackValue)

/-- `getRecommendation` (src/engine.js:4-92). JS `Array.prototype.sort` is
required to be stable, so it is modelled by a stable merge sort under
`recLE`. -/
def getRecommendation (now : SDate) (cards : List Card)
    (payments : List Payment) (pd : PurchaseDetails) :
    Except String (List RecOption) :=
  if cards.length = 0 then
    Except.error "Please add some credit cards first to get recommendations."
  else
    Except.ok ((eligibleOptions now cards payments pd).mergeSort recLE)

/-- A JSON-structured JS value, as held by the stores. -/
inductive JVal where
  | jnull
  | jbool (b : Bool)
  | jnum (q : ℚ)
  | jstr (s : String)
  | jarr (elems : List JVal)
  | jobj (fields : List (String × JVal))
deriving Repr

/-- JS truthiness of a `JVal`. -/
def JVal.truthy : JVal → Bool
  | .jnull => false
  | .jbool b => b
  | .jnum q => !(decide (q = 0))
  | .jstr s => !(s == "")
  | .jarr _ => true
  | .jobj _ => true

/-- JS `.length` where defined: arrays and strings; `none` = `undefined`. -/
def JVal.lengthProp : JVal → Option ℚ
  | .jarr xs => some xs.length
  | .jstr s => some s.length
  | _ => none

/-- The two storage backends of src/storage.js: `localStorage` (legacy,
string-valued, also holding the `migrated_*` flags) and IndexedDB
(primary, structured values). -/
structure StoreState where
  legacy : String → Option String
  primary : String → Option JVal

/-- Point update of a string-keyed partial map. -/
def updFn {α : Type} (f : String → Option α) (k : String) (v : Option α) :
    String → Option α :=
  fun k' => if k' = k then v else f k'

/-- `storage.get` (src/storage.js:10-34). `parse` models the host
`JSON.parse` (`none` = it throws on that string). Primary-store operations
are modelled as succeeding, so the only throwing operation on this path is
`JSON.parse`; when the catch-block's own re-parse throws, the rejection is
modelled as `Except.error ()`. A result of `Except.ok none` is the JS
`undefined`/`null`. -/
def storageGet (parse : String → Option JVal) (st : StoreState) (key : String) :
    Except Unit (Option JVal) × StoreState :=
  let migratedKey := "migrated_" ++ key
  let isMigrated := st.legacy migratedKey
  if !strOptTruthy isMigrated then
    match st.legacy key with
    | some legacyValue =>
        match parse legacyValue with
        | some parsedValue =>
            (Except.ok (some parsedValue),
             { legacy := updFn st.legacy migratedKey (some "true")
               primary := updFn st.primary key (some parsedValue) })
        | none =>
            -- JSON.parse threw before any write; the catch block re-reads the
            -- same legacy string: falsy -> returns null, else re-parse throws.
            if legacyValue == "" then (Except.ok none, st)
            else (Except.error (), st)
    | none => (Except.ok (st.primary key), st)
  else (Except.ok (st.primary key), st)

/-- `storage.set` (src/storage.js:36-48) on the non-throwing primary path:
writes the primary store and records the `migrated_` flag; returns `true`. -/
def storageSet (st : StoreState) (key : String) (v : JVal) : Bool × StoreState :=
  (true,
   { legacy := updFn st.legacy ("migrated_" ++ key) (some "true")
     primary := updFn st.primary key (some v) })

/-- The parsed top-level JSON document handed to `importData`; a field is
`none` when the key is absent from the document. -/
structure ImportDoc where
  cards : Option JVal
  payments : Option JVal
  userPresets : Option JVal
  onboardingCompleted : Option JVal
  biometricEnabled : Option JVal
deriving Repr

/-- JS truthiness of a possibly-absent object field. -/
def fieldTruthy : Option JVal → Bool
  | none => false
  | some v => v.truthy

/-- `storage.updateBackupInfo` (src/storage.js:249-256), writing the
`last_backup_info` record directly to the primary store; a JS `undefined`
field value is modelled as `jnull`. -/
def updateBackupInfo (st : StoreState) (paymentCount : Option ℚ)
    (nowMs lastModified : ℚ) : StoreState :=
  { st with
    primary := updFn st.primary "last_backup_info"
      (some (JVal.jobj
        [("lastBackupTime", JVal.jnum nowMs),
         ("transactionCountAtBackup",
            match paymentCount with
            | some n => JVal.jnum n
            | none => JVal.jnull),
         ("fileLastModified", JVal.jnum lastModified)])) }

/-- `storage.importData` (src/storage.js:106-130) after a successful
`JSON.parse` of the file text: the per-key writes, then the sync
bookkeeping (`last_pull_time` via a direct primary write, then
`updateBackupInfo` with `data.payments ? data.payments.length : 0` and the
default `lastModified = Date.now()`). -/
def importData (nowMs : ℚ) (doc : ImportDoc) (st : StoreState) : StoreState :=
  let st := if fieldTruthy doc.cards then
      (storageSet st "cards" (doc.cards.getD JVal.jnull)).2 else st
  let st := if fieldTruthy doc.payments then
      (storageSet st "payments" (doc.payments.getD JVal.jnull)).2 else st
  let st := if fieldTruthy doc.userPresets then
      (storageSet st "userPresets" (doc.userPresets.getD JVal.jnull)).2 else st
  let st :=
    match doc.onboardingCompleted with
    | some v => (storageSet st "onboardingCompleted" v).2
    | none => st
  let st := { st with
    primary := updFn st.primary "last_pull_time" (some (JVal.jnum nowMs)) }
  let count : Option ℚ :=
    if fieldTruthy doc.payments then (doc.payments.getD JVal.jnull).lengthProp
    else some 0
  updateBackupInfo st count nowMs nowMs

/-- The linked file's metadata as seen through `handle.getFile()`. -/
structure FileRec where
  lastModified : ℚ
deriving DecidableEq, Repr

/-- A native file handle, with the outcome of its read-permission query and
the file it currently designates. -/
structure FileHandle where
  readPermissionGranted : Bool
  file : FileRec
deriving DecidableEq, Repr

/-- The stored `last_backup_info` record (src/storage.js:249-256). -/
structure BackupInfo where
  lastBackupTime : ℚ
  transactionCountAtBackup : ℚ
  fileLastModified : ℚ
deriving DecidableEq, Repr

/-- The primary-store entries read by `checkForExternalChanges`. -/
structure SyncState where
  backupFileHandle : Option FileHandle
  lastBackupInfo : Option BackupInfo
deriving DecidableEq, Repr

/-- `storage.checkForExternalChanges` (src/storage.js:259-276): reports an
external change when the linked file's `lastModified` exceeds the recorded
`fileLastModified` (defaulted through `|| 0` twice) by more than 1000 ms. -/
def checkForExternalChanges (st : SyncState) : Bool :=
  match st.backupFileHandle with
  | none => false
  | some handle =>
    if !handle.readPermissionGranted then false
    else
      let info := st.lastBackupInfo.getD ⟨0, 0, 0⟩
      let recorded :=
        if info.fileLastModified = 0 then 0 else info.fileLastModified
      decide (handle.file.lastModified > recorded + 1000)

/-! ## Spec-side definitions

These follow the wording of the specification (not the source); they are
compared against the source-derived definitions above. -/

/-- The weighted-average rate the spec describes for a partially exhausted
cap: the portion within the remaining cap earns the tier rate, the remainder
earns the fallback rate. -/
def blendedRate (tierRate fbRate remaining amount : ℚ) : ℚ :=
  (remaining * tierRate + (amount - remaining) * fbRate) / amount

/-- The candidacy condition exactly as claim C1 words it: category
substring-match in either direction, OR an actual merchant substring match in
either direction (so a tier with no merchant list, or a purchase without a
merchant, contributes nothing here), OR the tier's category text contains
"all" — AND the portal (if any) matches. -/
def claimedCandidate (r : Reward) (pd : PurchaseDetails) : Bool :=
  (categoryMatchB r pd
    || (match pd.merchant, r.merchants with
        | some m, some ms =>
            strIncludes (jsToLower ms) (jsToLower m) ||
              strIncludes (jsToLower m) (jsToLower ms)
        | _, _ => false)
    || strIncludes (jsToLower r.category) "all")
  && portalMatchB r pd

/-- The merchant clause of the amended C1: vacuously satisfied when the
purchase names no merchant or the tier lists none (or either is empty),
otherwise a substring match in either direction. -/
def amendedMerchantOk (r : Reward) (pd : PurchaseDetails) : Bool :=
  match pd.merchant, r.merchants with
  | none, _ => true
  | some _, none => true
  | some m, some ms =>
      m == "" || ms == "" ||
      strIncludes (jsToLower ms) (jsToLower m) ||
        strIncludes (jsToLower m) (jsToLower ms)

/-- The candidacy condition as the amended C1 states it. -/
def amendedCandidate (r : Reward) (pd : PurchaseDetails) : Bool :=
  (categoryMatchB r pd || amendedMerchantOk r pd
    || strIncludes (jsToLower r.category) "all")
  && portalMatchB r pd

/-- The catch-all selection as claim C2 words it: the first tier carrying
`categoryMatch = "all"`, defaulting to 1 when none exists. -/
def claimedCatchAllRate (card : Card) : ℚ :=
  match card.rewards.find? (fun t => t.categoryMatch == some "all") with
  | some t => t.rate
  | none => 1

/-! ## Concrete inputs used by witnesses and counterexamples -/

def c1Tier : Reward :=
  { rate := 1, unit := none, category := "Dining", categoryMatch := none,
    merchants := none, method := "any", portal := none, spendingCap := 0,
    capPeriod := "none", combinedCap := false }

def c1Card : Card :=
  { id := 1, name := "X", rewards := [c1Tier], rentDayBoost := false,
    rewardMultiplier := none }

def c1Purchase : PurchaseDetails :=
  { category := "Gas", amount := 10, paymentMethod := "any",
    merchant := none, portal := none }

def c1wTier : Reward :=
  { rate := 3, unit := none, category := "Dining", categoryMatch := none,
    merchants := some "Apple", method := "any", portal := none,
    spendingCap := 0, capPeriod := "none", combinedCap := false }

def c1wCard : Card :=
  { id := 2, name := "Y", rewards := [c1wTier], rentDayBoost := false,
    rewardMultiplier := none }

def c1wPurchase : PurchaseDetails :=
  { category := "Gas", amount := 10, paymentMethod := "any",
    merchant := some "Shell", portal := none }

def c2CapTier : Reward :=
  { rate := 5, unit := none, category := "Dining", categoryMatch := none,
    merchants := none, method := "any", portal := none, spendingCap := 50,
    capPeriod := "monthly", combinedCap := false }

def c2AllTier : Reward :=
  { rate := 2, unit := none, category := "Everything", categoryMatch := some "all",
    merchants := none, method := "any", portal := none, spendingCap := 0,
    capPeriod := "none", combinedCap := false }

def c2Card : Card :=
  { id := 3, name := "A", rewards := [c2CapTier, c2AllTier], rentDayBoost := false,
    rewardMultiplier := none }

def c2Purchase : PurchaseDetails :=
  { category := "Dining", amount := 100, paymentMethod := "any",
    merchant := none, portal := none }

def c2wCapTier : Reward :=
  { rate := 5, unit := none, category := "Dining", categoryMatch := none,
    merchants := none, method := "any", portal := none, spendingCap := 50,
    capPeriod := "monthly", combinedCap := false }

def c2wAllTier : Reward :=
  { rate := 1, unit := none, category := "All Other", categoryMatch := some "all",
    merchants := none, method := "any", portal := none, spendingCap := 0,
    capPeriod := "none", combinedCap := false }

def c2wCard : Card :=
  { id := 4, name := "W", rewards := [c2wCapTier, c2wAllTier], rentDayBoost := false,
    rewardMultiplier := none }

def c2wPurchase : PurchaseDetails :=
  { category := "Dining", amount := 100, paymentMethod := "any",
    merchant := none, portal := none }

def c3Tier : Reward :=
  { rate := 5, unit := none, category := "Groceries", categoryMatch := none,
    merchants := none, method := "any", portal := none, spendingCap := 100,
    capPeriod := "monthly", combinedCap := false }

def c3Card : Card :=
  { id := 42, name := "G", rewards := [c3Tier], rentDayBoost := false,
    rewardMultiplier := none }

def c3Purchase : PurchaseDetails :=
  { category := "Groceries", amount := 30, paymentMethod := "any",
    merchant := none, portal := none }

def c4Doc : ImportDoc :=
  { cards := some (JVal.jarr [JVal.jnum 1]),
    payments := some (JVal.jarr []),
    userPresets := some (JVal.jarr []),
    onboardingCompleted := some (JVal.jbool false),
    biometricEnabled := some (JVal.jbool true) }

def c4Store : StoreState :=
  ⟨fun _ => none,
   fun k => if k == "biometricEnabled" then some (JVal.jbool false) else none⟩

def c5Parse : String → Option JVal :=
  fun s => if s == "7" then some (JVal.jnum 7) else none

def c5Store : StoreState :=
  ⟨fun k => if k == "cards" then some "7" else none, fun _ => none⟩

def c6Tier : Reward :=
  { rate := 3, unit := none, category := "Dining", categoryMatch := none,
    merchants := some "Apple", method := "any", portal := none,
    spendingCap := 0, capPeriod := "none", combinedCap := false }

def c6Card : Card :=
  { id := 6, name := "Z", rewards := [c6Tier], rentDayBoost := false,
    rewardMultiplier := none }

def c6Purchase : PurchaseDetails :=
  { category := "Gas", amount := 25, paymentMethod := "any",
    merchant := some "Shell", portal := none }

def c7TierLow : Reward :=
  { rate := 1, unit := none, category := "All Other", categoryMatch := some "all",
    merchants := none, method := "any", portal := none, spendingCap := 0,
    capPeriod := "none", combinedCap := false }

def c7TierHigh : Reward :=
  { rate := 5, unit := none, category := "Gas", categoryMatch := none,
    merchants := none, method := "any", portal := none, spendingCap := 0,
    capPeriod := "none", combinedCap := false }

def c7CardA : Card :=
  { id := 71, name := "A", rewards := [c7TierLow, c7TierHigh], rentDayBoost := false,
    rewardMultiplier := none }

def c7CardB : Card :=
  { id := 72, name := "B", rewards := [c7TierLow], rentDayBoost := false,
    rewardMultiplier := none }

def c7Purchase : PurchaseDetails :=
  { category := "Gas", amount := 100, paymentMethod := "any",
    merchant := none, portal := none }

def c9Tier : Reward :=
  { rate := 5, unit := none, category := "Dining", categoryMatch := none,
    merchants := none, method := "any", portal := none, spendingCap := 50,
    capPeriod := "monthly", combinedCap := false }

def c9Card : Card :=
  { id := 9, name := "B", rewards := [c9Tier], rentDayBoost := true,
    rewardMultiplier := none }

def c9PurchaseBig : PurchaseDetails :=
  { category := "Dining", amount := 100, paymentMethod := "any",
    merchant := none, portal := none }

def c9PurchaseSmall : PurchaseDetails :=
  { category := "Dining", amount := 30, paymentMethod := "any",
    merchant := none, portal := none }

def c10Tier : Reward :=
  { rate := 3, unit := none, category := "Gas", categoryMatch := none,
    merchants := none, method := "any", portal := none, spendingCap := 500,
    capPeriod := "none", combinedCap := false }

def c10Card : Card :=
  { id := 7, name := "N", rewards := [c10Tier], rentDayBoost := false,
    rewardMultiplier := none }

def c10Purchase : PurchaseDetails :=
  { category := "Gas", amount := 1000, paymentMethod := "any",
    merchant := none, portal := none }

/-! ## Shared lemmas -/

theorem tierSpent_eq (now : SDate) (payments : List Payment) (card : Card)
    (r : Reward) :
    tierSpent now payments card r
      = getSpendingByCardAndPeriod now payments card.id r.capPeriod r.combinedCap := by
  unfold tierSpent
  cases r.combinedCap <;> rfl

theorem evalReward_none_of_guard (now : SDate) (payments : List Payment)
    (card : Card) (r : Reward) (pd : PurchaseDetails)
    (h : methodCompatible r pd = false ∨ candidateCond r pd = false) :
    evalReward now payments card r pd = none := by
  unfold evalReward
  rcases h with h | h <;> simp [h]

theorem blended_eq (tr fb rem amt : ℚ) (h : amt ≠ 0) :
    ((rem * (tr / 100) + (amt - rem) * (fb / 100)) / amt) * 100
      = blendedRate tr fb rem amt := by
  unfold blendedRate
  field_simp
  ring

theorem merchantMatch_eq_amended (r : Reward) (pd : PurchaseDetails) :
    merchantMatch r pd = amendedMerchantOk r pd := by
  unfold merchantMatch amendedMerchantOk
  cases pd.merchant <;> cases r.merchants <;> simp [strOptFalsy]

theorem recLE_trans (a b c : RecOption) :
    recLE a b → recLE b c → recLE a c := by
  unfold recLE
  simp only [decide_eq_true_eq]
  exact fun h1 h2 => le_trans h2 h1

theorem recLE_total (a b : RecOption) : recLE a b || recLE b a := by
  unfold recLE
  rcases le_total a.cashbackValue b.cashbackValue with h | h <;> simp [h]

theorem mergeSort_filter_of_tied {α : Type} (le : α → α → Bool) (l : List α)
    (p : α → Bool)
    (htrans : ∀ a b c, le a b → le b c → le a c)
    (htotal : ∀ a b, le a b || le b a)
    (hp : ∀ a b, p a = true → p b = true → le a b = true) :
    (l.mergeSort le).filter p = l.filter p := by
  have hpw : (l.filter p).Pairwise (fun a b => le a b) := by
    apply List.pairwise_of_forall_mem_list
    intro a ha b hb
    exact hp a b (List.mem_filter.mp ha).2 (List.mem_filter.mp hb).2
  have hsub : List.Sublist (l.filter p) (l.mergeSort le) :=
    List.sublist_mergeSort htrans htotal hpw (List.filter_sublist l)
  have hsub2 : List.Sublist ((l.filter p).filter p) ((l.mergeSort le).filter p) :=
    hsub.filter p
  have hidem : (l.filter p).filter p = l.filter p :=
    List.filter_eq_self.mpr (fun a ha => (List.mem_filter.mp ha).2)
  rw [hidem] at hsub2
  have hperm : List.Perm ((l.mergeSort le).filter p) (l.filter p) :=
    (List.mergeSort_perm l le).filter p
  exact (hsub2.eq_of_length hperm.length_eq.symm).symm

theorem fieldTruthy_some (o : Option JVal) (h : fieldTruthy o = true) :
    o = some (o.getD JVal.jnull) := by
  cases o
  · simp [fieldTruthy] at h
  · rfl

theorem fieldTruthy_getD (o : Option JVal) (h : fieldTruthy o = true) :
    some (o.getD JVal.jnull) = o :=
  (fieldTruthy_some o h).symm

theorem migratedKey_ne (K : String) : "migrated_" ++ K ≠ K := by
  intro h
  have h2 : ("migrated_" ++ K).length = K.length := congrArg String.length h
  rw [String.length_append] at h2
  have h3 : "migrated_".length = 9 := rfl
  rw [h3] at h2
  omega

/-! ## C1 -/

/-- C1, counterexample: a tier with no merchant list and a non-matching
category is treated as a candidate by the engine (its `merchantMatch` is
vacuously true and an option is produced), while the condition as C1 states
it — requiring an actual merchant substring match — is false, so the claimed
"exactly when" fails. -/
theorem candidacy_vacuous_merchant_cex :
    candidateCond c1Tier c1Purchase = true
    ∧ claimedCandidate c1Tier c1Purchase = false
    ∧ (evalReward ⟨2026, 9, 15⟩ [] c1Card c1Tier c1Purchase).isSome = true := by
  refine ⟨by decide, by decide, by decide⟩

/-- C1, amended: a tier is a candidate exactly when ((its category
substring-matches the purchase category in either direction) OR (the
purchase names no merchant, or the tier lists no merchants, or the merchant
substring-matches the tier's merchant list in either direction) OR the
tier's category text contains "all") AND the tier's portal (if any) matches
the purchase's portal; in particular a tier failing this condition produces
no option. -/
theorem candidacy_condition_amended (now : SDate) (payments : List Payment)
    (card : Card) (r : Reward) (pd : PurchaseDetails) :
    candidateCond r pd = amendedCandidate r pd
    ∧ (amendedCandidate r pd = false →
        evalReward now payments card r pd = none) := by
  have heq : candidateCond r pd = amendedCandidate r pd := by
    unfold candidateCond amendedCandidate
    rw [merchantMatch_eq_amended]
  exact ⟨heq, fun hf =>
    evalReward_none_of_guard now payments card r pd (Or.inr (heq.trans hf))⟩

/-- Witness for C1 (amended), at a tier whose merchant list and the
purchase's merchant are both present but do not match. -/
theorem candidacy_condition_amended_witness :
    candidateCond c1wTier c1wPurchase = amendedCandidate c1wTier c1wPurchase
    ∧ evalReward ⟨2026, 9, 15⟩ [] c1wCard c1wTier c1wPurchase = none := by
  have h := candidacy_condition_amended ⟨2026, 9, 15⟩ [] c1wCard c1wTier c1wPurchase
  exact ⟨h.1, h.2 (by decide)⟩

/-! ## C2 -/

unseal Rat.add Rat.mul Rat.sub Rat.inv in
/-- C2, counterexample: on a card whose `categoryMatch = "all"` tier has
rate 2 but category text "Everything" (which does not contain "all"), the
engine's blended rate uses fallback 1 and yields 3, not the 7/2 the claim's
catch-all selection (the tier with `categoryMatch = "all"`) predicts. -/
theorem blended_fallback_category_sniff_cex :
    (evalReward ⟨2026, 9, 15⟩ [] c2Card c2CapTier c2Purchase).map
        (fun o => o.effectiveRate) = some 3
    ∧ claimedCatchAllRate c2Card = 2
    ∧ blendedRate c2CapTier.rate (claimedCatchAllRate c2Card) 50 c2Purchase.amount
        = 7 / 2
    ∧ ((7 : ℚ) / 2) ≠ 3 := by
  refine ⟨by decide, by decide, by decide, by norm_num⟩

/-- C2, amended: for a capped tier whose remaining cap is positive but below
the amount, the engine blends the rate — the portion within the remaining
cap earns the tier's rate (times the card multiplier), the remainder earns
the rate of the first tier whose category text contains "all" (times the
multiplier; 1 if none exists) — and the effective rate is the weighted
average, with cashback = amount × rate / 100. -/
theorem blended_rate_amended (now : SDate) (payments : List Payment)
    (card : Card) (r : Reward) (pd : PurchaseDetails)
    (hcap : r.spendingCap ≠ 0)
    (hm : methodCompatible r pd = true) (hc : candidateCond r pd = true)
    (h1 : 0 < r.spendingCap - tierSpent now payments card r)
    (h2 : r.spendingCap - tierSpent now payments card r < pd.amount) :
    (evalReward now payments card r pd).map (fun o => o.effectiveRate)
      = some (blendedRate (r.rate * cardMultiplier card)
          (catchAllRate card * cardMultiplier card)
          (r.spendingCap - tierSpent now payments card r) pd.amount)
    ∧ (evalReward now payments card r pd).map (fun o => o.cashbackValue)
      = some (pd.amount *
          (blendedRate (r.rate * cardMultiplier card)
            (catchAllRate card * cardMultiplier card)
            (r.spendingCap - tierSpent now payments card r) pd.amount / 100)) := by
  have hamt : pd.amount ≠ 0 := (by linarith : (0:ℚ) < pd.amount).ne'
  unfold evalReward
  rw [hm, hc]
  simp only [Bool.not_true, Bool.false_eq_true, if_false]
  rw [if_pos hcap, if_neg (not_le.mpr h1), if_pos h2]
  simp only [mkOption]
  rw [blended_eq _ _ _ _ hamt]
  exact ⟨rfl, rfl⟩

unseal Rat.add Rat.mul Rat.sub Rat.inv in
/-- Witness for C2 (amended), at the claim's own instance: tier
rate 5 / cap 50, catch-all tier rate 1, zero prior spend, amount 100 —
the effective rate is 3.0 and the cashback value is 3.00. -/
theorem blended_rate_amended_witness :
    (evalReward ⟨2026, 9, 15⟩ [] c2wCard c2wCapTier c2wPurchase).map
        (fun o => o.effectiveRate) = some 3
    ∧ (evalReward ⟨2026, 9, 15⟩ [] c2wCard c2wCapTier c2wPurchase).map
        (fun o => o.cashbackValue) = some 3 := by
  have h := blended_rate_amended ⟨2026, 9, 15⟩ [] c2wCard c2wCapTier c2wPurchase
    (by norm_num [c2wCapTier]) (by decide) (by decide) (by decide) (by decide)
  exact ⟨h.1.trans (by decide), h.2.trans (by decide)⟩

/-! ## C3 -/

/-- C3: for a tier with a positive spending cap whose period-to-date spend
(payments with matching card id dated on or after the period window start)
has reached the cap, the engine produces no option at all from that tier —
the per-tier evaluation is `none`, so nothing from this tier can enter the
results, rather than being scored at the fallback rate. -/
theorem cap_exhausted_tier_excluded (now : SDate) (payments : List Payment)
    (card : Card) (r : Reward) (pd : PurchaseDetails)
    (hcap : 0 < r.spendingCap)
    (hspent : r.spendingCap
      ≤ getSpendingByCardAndPeriod now payments card.id r.capPeriod r.combinedCap) :
    evalReward now payments card r pd = none := by
  unfold evalReward
  cases hmc : methodCompatible r pd
  · simp
  · cases hcc : candidateCond r pd
    · simp
    · have hne : r.spendingCap ≠ 0 := ne_of_gt hcap
      have hrem : r.spendingCap - tierSpent now payments card r ≤ 0 := by
        rw [tierSpent_eq]
        linarith
      simp [hne, hrem]

unseal Rat.add Rat.mul Rat.sub Rat.inv in
/-- Witness for C3: a monthly 100-cap tier with 100 already spent this month
yields no option for a matching purchase. -/
theorem cap_exhausted_tier_excluded_witness :
    evalReward ⟨2026, 9, 20⟩ [{ cardId := 42, amount := 100, date := ⟨2026, 9, 5⟩ }]
      c3Card c3Tier c3Purchase = none :=
  cap_exhausted_tier_excluded ⟨2026, 9, 20⟩
    [{ cardId := 42, amount := 100, date := ⟨2026, 9, 5⟩ }] c3Card c3Tier c3Purchase
    (by norm_num [c3Tier]) (by decide)

/-! ## C4 -/

/-- C4, counterexample: a document carrying only `biometricEnabled: true`
leaves the primary store's `biometricEnabled` entry unwritten after
`importData`, contradicting the claim that every recognized export-schema
key present (including `biometricEnabled`) is applied. -/
theorem importData_biometric_not_applied_cex :
    (importData 0
        { cards := none, payments := none, userPresets := none,
          onboardingCompleted := none, biometricEnabled := some (JVal.jbool true) }
        ⟨fun _ => none, fun _ => none⟩).primary "biometricEnabled" = none := by
  rfl

set_option maxHeartbeats 1600000 in
/-- C4, amended: `importData` writes `cards`, `payments` and `userPresets`
into the primary store when present with a truthy value, and
`onboardingCompleted` when present with any value; `biometricEnabled` is
never applied by import; keys absent from the document leave the
corresponding stored entries unchanged. -/
theorem importData_keys_amended (nowMs : ℚ) (doc : ImportDoc) (st : StoreState) :
    (fieldTruthy doc.cards = true →
      (importData nowMs doc st).primary "cards" = doc.cards)
    ∧ (fieldTruthy doc.payments = true →
      (importData nowMs doc st).primary "payments" = doc.payments)
    ∧ (fieldTruthy doc.userPresets = true →
      (importData nowMs doc st).primary "userPresets" = doc.userPresets)
    ∧ (∀ v, doc.onboardingCompleted = some v →
      (importData nowMs doc st).primary "onboardingCompleted" = some v)
    ∧ (importData nowMs doc st).primary "biometricEnabled"
        = st.primary "biometricEnabled"
    ∧ (doc.cards = none →
      (importData nowMs doc st).primary "cards" = st.primary "cards")
    ∧ (doc.payments = none →
      (importData nowMs doc st).primary "payments" = st.primary "payments")
    ∧ (doc.userPresets = none →
      (importData nowMs doc st).primary "userPresets" = st.primary "userPresets")
    ∧ (doc.onboardingCompleted = none →
      (importData nowMs doc st).primary "onboardingCompleted"
        = st.primary "onboardingCompleted") := by
  obtain ⟨dc, dp, du, donb, dbio⟩ := doc
  cases donb <;>
    by_cases h1 : fieldTruthy dc <;>
    by_cases h2 : fieldTruthy dp <;>
    by_cases h3 : fieldTruthy du <;>
      refine ⟨?_, ?_, ?_, ?_, ?_, ?_, ?_, ?_, ?_⟩ <;>
        intros <;>
        simp_all [importData, storageSet, updateBackupInfo, updFn, fieldTruthy_getD,
          fieldTruthy]

/-- Witness for C4 (amended): a full document writes `cards` and
`onboardingCompleted` (even when `false`), and the pre-existing
`biometricEnabled` entry survives untouched. -/
theorem importData_keys_amended_witness :
    (importData 0 c4Doc c4Store).primary "cards" = some (JVal.jarr [JVal.jnum 1])
    ∧ (importData 0 c4Doc c4Store).primary "onboardingCompleted"
        = some (JVal.jbool false)
    ∧ (importData 0 c4Doc c4Store).primary "biometricEnabled"
        = some (JVal.jbool false) := by
  have h := importData_keys_amended 0 c4Doc c4Store
  refine ⟨h.1 rfl, h.2.2.2.1 (JVal.jbool false) rfl, ?_⟩
  rw [h.2.2.2.2.1]
  rfl

/-! ## C5 -/

/-- C5: for a key K with a legacy value V (parsing to v) and no migration
flag, the first `get(K)` returns v, writes v into the primary store and sets
the migration flag; afterwards — whatever the legacy entry at K is changed
to — a `get(K)` returns the primary-store value with no further state
change, so the legacy store is not read again and each legacy key is
migrated exactly once. -/
theorem legacy_migration_once (parse : String → Option JVal) (st : StoreState)
    (K V : String) (v : JVal)
    (hflag : st.legacy ("migrated_" ++ K) = none)
    (hleg : st.legacy K = some V)
    (hparse : parse V = some v) :
    (storageGet parse st K).1 = Except.ok (some v)
    ∧ (storageGet parse st K).2.primary K = some v
    ∧ (storageGet parse st K).2.legacy ("migrated_" ++ K) = some "true"
    ∧ ∀ (tampered : Option String),
        (storageGet parse
            { legacy := updFn (storageGet parse st K).2.legacy K tampered
              primary := (storageGet parse st K).2.primary } K).1
          = Except.ok ((storageGet parse st K).2.primary K)
        ∧ (storageGet parse
            { legacy := updFn (storageGet parse st K).2.legacy K tampered
              primary := (storageGet parse st K).2.primary } K).2
          = { legacy := updFn (storageGet parse st K).2.legacy K tampered
              primary := (storageGet parse st K).2.primary } := by
  have hne := migratedKey_ne K
  have hfirst : storageGet parse st K
      = (Except.ok (some v),
         { legacy := updFn st.legacy ("migrated_" ++ K) (some "true")
           primary := updFn st.primary K (some v) }) := by
    simp [storageGet, hflag, hleg, hparse, strOptTruthy, strOptFalsy]
  refine ⟨?_, ?_, ?_, ?_⟩
  · rw [hfirst]
  · rw [hfirst]
    simp [updFn]
  · rw [hfirst]
    simp [updFn]
  · intro t
    rw [hfirst]
    constructor
    · simp [storageGet, updFn, hne, strOptTruthy, strOptFalsy]
    · simp [storageGet, updFn, hne, strOptTruthy, strOptFalsy]

/-- Witness for C5: a legacy `"cards"` entry `"7"` is returned parsed,
migrated into the primary store, and a second get (with the legacy entry
removed) still returns it from the primary store. -/
theorem legacy_migration_once_witness :
    (storageGet c5Parse c5Store "cards").1 = Except.ok (some (JVal.jnum 7))
    ∧ (storageGet c5Parse c5Store "cards").2.primary "cards" = some (JVal.jnum 7)
    ∧ (storageGet c5Parse
          { legacy := updFn (storageGet c5Parse c5Store "cards").2.legacy "cards" none
            primary := (storageGet c5Parse c5Store "cards").2.primary } "cards").1
        = Except.ok (some (JVal.jnum 7)) := by
  have h := legacy_migration_once c5Parse c5Store "cards" "7" (JVal.jnum 7) rfl rfl rfl
  refine ⟨h.1, h.2.1, ?_⟩
  have h4 := (h.2.2.2 none).1
  rw [h4, h.2.1]

/-! ## C6 -/

/-- C6: on an empty card list `getRecommendation` returns the error result,
and on a non-empty card list where no reward tier passes the method and
candidacy guards it returns the empty list, so the caller can distinguish
"no cards" from "no eligible match". -/
theorem no_cards_vs_no_match (now : SDate) (cards : List Card)
    (payments : List Payment) (pd : PurchaseDetails) :
    (cards = [] → getRecommendation now cards payments pd
        = Except.error "Please add some credit cards first to get recommendations.")
    ∧ (cards ≠ [] →
        (∀ card ∈ cards, ∀ r ∈ card.rewards,
            methodCompatible r pd = false ∨ candidateCond r pd = false) →
        getRecommendation now cards payments pd = Except.ok []) := by
  constructor
  · intro h
    subst h
    rfl
  · intro hne hnm
    have hlen : cards.length ≠ 0 := by
      simpa [List.length_eq_zero] using hne
    have helig : eligibleOptions now cards payments pd = [] := by
      unfold eligibleOptions
      rw [List.flatMap_eq_nil_iff]
      intro card hcard
      by_cases he : card.rewards.isEmpty
      · rw [if_pos he]
      · rw [if_neg he, List.filterMap_eq_nil_iff]
        intro r hr
        exact evalReward_none_of_guard now payments card r pd (hnm card hcard r hr)
    unfold getRecommendation
    rw [if_neg hlen, helig]
    rw [List.mergeSort_nil]

/-- Witness for C6: no cards gives the error result; one card whose only
tier matches neither category nor merchant gives the empty list. -/
theorem no_cards_vs_no_match_witness :
    getRecommendation ⟨2026, 9, 15⟩ [] [] c6Purchase
      = Except.error "Please add some credit cards first to get recommendations."
    ∧ getRecommendation ⟨2026, 9, 15⟩ [c6Card] [] c6Purchase = Except.ok [] := by
  constructor
  · exact (no_cards_vs_no_match ⟨2026, 9, 15⟩ [] [] c6Purchase).1 rfl
  · exact (no_cards_vs_no_match ⟨2026, 9, 15⟩ [c6Card] [] c6Purchase).2
      (by decide) (by decide)

/-! ## C7 -/

/-- C7: whenever `getRecommendation` returns a list, that list is a
permutation of the discovery-ordered option list, is sorted descending by
`cashbackValue`, and options of any fixed `cashbackValue` appear exactly in
discovery order (card list order, then reward tier order within a card). -/
theorem ranking_sorted_stable (now : SDate) (cards : List Card)
    (payments : List Payment) (pd : PurchaseDetails) (opts : List RecOption)
    (h : getRecommendation now cards payments pd = Except.ok opts) :
    opts.Perm (eligibleOptions now cards payments pd)
    ∧ opts.Pairwise (fun a b => b.cashbackValue ≤ a.cashbackValue)
    ∧ ∀ v : ℚ, opts.filter (fun o => decide (o.cashbackValue = v))
        = (eligibleOptions now cards payments pd).filter
            (fun o => decide (o.cashbackValue = v)) := by
  unfold getRecommendation at h
  by_cases hlen : cards.length = 0
  · rw [if_pos hlen] at h
    exact absurd h (by simp)
  · rw [if_neg hlen] at h
    have hopts : opts = (eligibleOptions now cards payments pd).mergeSort recLE := by
      injection h with h2
      exact h2.symm
    subst hopts
    refine ⟨List.mergeSort_perm _ _, ?_, ?_⟩
    · have hs := List.sorted_mergeSort recLE_trans recLE_total
        (eligibleOptions now cards payments pd)
      exact hs.imp (fun hab => by
        simpa [recLE, decide_eq_true_eq] using hab)
    · intro v
      apply mergeSort_filter_of_tied recLE _ _ recLE_trans recLE_total
      intro a b ha hb
      have ha2 : a.cashbackValue = v := by simpa using ha
      have hb2 : b.cashbackValue = v := by simpa using hb
      unfold recLE
      simp [ha2, hb2]

unseal Rat.add Rat.mul Rat.sub Rat.inv in
/-- Witness for C7: a two-card input with a cashback tie, applied to the
sorted output. -/
theorem ranking_sorted_stable_witness :
    ((eligibleOptions ⟨2026, 9, 15⟩ [c7CardA, c7CardB] [] c7Purchase).mergeSort
        recLE).Pairwise (fun a b => b.cashbackValue ≤ a.cashbackValue)
    ∧ ((eligibleOptions ⟨2026, 9, 15⟩ [c7CardA, c7CardB] [] c7Purchase).mergeSort
        recLE).filter (fun o => decide (o.cashbackValue = 1))
      = (eligibleOptions ⟨2026, 9, 15⟩ [c7CardA, c7CardB] [] c7Purchase).filter
          (fun o => decide (o.cashbackValue = 1)) := by
  have h := ranking_sorted_stable ⟨2026, 9, 15⟩ [c7CardA, c7CardB] [] c7Purchase
    ((eligibleOptions ⟨2026, 9, 15⟩ [c7CardA, c7CardB] [] c7Purchase).mergeSort recLE)
    (by rw [getRecommendation, if_neg (by decide)])
  exact ⟨h.2.1, h.2.2 1⟩

/-! ## C8 -/

/-- C8: with a linked handle and read permission granted,
`checkForExternalChanges` reports a change exactly when the file's
`lastModified` exceeds the recorded `fileLastModified` by more than
1000 ms; a timestamp within the buffer is not reported. -/
theorem external_change_buffer (st : SyncState) (h : FileHandle)
    (hh : st.backupFileHandle = some h) (hp : h.readPermissionGranted = true) :
    checkForExternalChanges st = true ↔
      (st.lastBackupInfo.getD ⟨0, 0, 0⟩).fileLastModified + 1000
        < h.file.lastModified := by
  unfold checkForExternalChanges
  rw [hh]
  simp only [hp, Bool.not_true, Bool.false_eq_true, if_false, decide_eq_true_eq]
  by_cases hz : (st.lastBackupInfo.getD ⟨0, 0, 0⟩).fileLastModified = 0
  · rw [if_pos hz, hz]
  · rw [if_neg hz]

/-- Witness for C8: lastModified 5000 against recorded 1000 is reported,
1500 (strictly within the buffer) is not. -/
theorem external_change_buffer_witness :
    checkForExternalChanges ⟨some ⟨true, ⟨5000⟩⟩, some ⟨0, 0, 1000⟩⟩ = true
    ∧ checkForExternalChanges ⟨some ⟨true, ⟨1500⟩⟩, some ⟨0, 0, 1000⟩⟩ = false := by
  constructor
  · exact (external_change_buffer _ ⟨true, ⟨5000⟩⟩ rfl rfl).mpr (by norm_num)
  · refine Bool.eq_false_iff.mpr (fun hb => ?_)
    have := (external_change_buffer _ ⟨true, ⟨1500⟩⟩ rfl rfl).mp hb
    norm_num at this

/-! ## C9 -/

/-- C9: on the first of the month with `rentDayBoost` set and a non-"rent"
tier, the partially-exhausted-cap branch recomputes the blended effective
rate from the tier's base rate times the card multiplier — discarding the
rent-day doubling — while the doubled rate survives exactly when the
remaining cap covers the purchase amount. -/
theorem blended_branch_discards_rent_day_boost (now : SDate)
    (payments : List Payment) (card : Card) (r : Reward) (pd : PurchaseDetails)
    (hday : now.day = 1) (hboost : card.rentDayBoost = true)
    (hrent : jsToLower r.category ≠ "rent")
    (hm : methodCompatible r pd = true) (hc : candidateCond r pd = true)
    (hcap : r.spendingCap ≠ 0) :
    (0 < r.spendingCap - tierSpent now payments card r →
     r.spendingCap - tierSpent now payments card r < pd.amount →
      (evalReward now payments card r pd).map (fun o => o.effectiveRate)
        = some (blendedRate (r.rate * cardMultiplier card)
            (catchAllRate card * cardMultiplier card)
            (r.spendingCap - tierSpent now payments card r) pd.amount))
    ∧ (0 < pd.amount →
       pd.amount ≤ r.spendingCap - tierSpent now payments card r →
      (evalReward now payments card r pd).map (fun o => o.effectiveRate)
        = some (r.rate * cardMultiplier card * 2)) := by
  constructor
  · intro h1 h2
    have hamt : pd.amount ≠ 0 := (by linarith : (0:ℚ) < pd.amount).ne'
    unfold evalReward
    rw [hm, hc]
    simp only [Bool.not_true, Bool.false_eq_true, if_false]
    rw [if_pos hcap, if_neg (not_le.mpr h1), if_pos h2]
    simp only [mkOption]
    rw [blended_eq _ _ _ _ hamt]
    rfl
  · intro hpos hge
    have h1 : 0 < r.spendingCap - tierSpent now payments card r :=
      lt_of_lt_of_le hpos hge
    unfold evalReward
    rw [hm, hc]
    simp only [Bool.not_true, Bool.false_eq_true, if_false]
    rw [if_pos hcap, if_neg (not_le.mpr h1), if_neg (not_lt.mpr hge)]
    simp [mkOption, hday, hboost, hrent]

unseal Rat.add Rat.mul Rat.sub Rat.inv in
/-- Witness for C9: on the 1st with the boost, amount 100 against a fresh
50-cap blends to 3 with no doubling, while amount 30 earns the doubled
rate 10. -/
theorem blended_branch_discards_rent_day_boost_witness :
    (evalReward ⟨2026, 9, 1⟩ [] c9Card c9Tier c9PurchaseBig).map
        (fun o => o.effectiveRate) = some 3
    ∧ (evalReward ⟨2026, 9, 1⟩ [] c9Card c9Tier c9PurchaseSmall).map
        (fun o => o.effectiveRate) = some 10 := by
  constructor
  · have h := (blended_branch_discards_rent_day_boost ⟨2026, 9, 1⟩ [] c9Card c9Tier
      c9PurchaseBig rfl rfl (by decide) (by decide) (by decide)
      (by norm_num [c9Tier])).1 (by decide) (by decide)
    exact h.trans (by decide)
  · have h := (blended_branch_discards_rent_day_boost ⟨2026, 9, 1⟩ [] c9Card c9Tier
      c9PurchaseSmall rfl rfl (by decide) (by decide) (by decide)
      (by norm_num [c9Tier])).2 (by norm_num [c9PurchaseSmall]) (by decide)
    exact h.trans (by decide)

/-! ## C10 -/

/-- C10: `getSpendingByCardAndPeriod` returns 0 for any `capPeriod` outside
quarterly, annual, monthly and statement, regardless of the payment history,
so a tier with a positive cap and such a period always has its full cap
remaining and always produces an option (never excluded for cap exhaustion)
once it passes the method and candidacy guards. -/
theorem unrecognized_capPeriod_zero_spend (now : SDate) (payments : List Payment)
    (card : Card) (r : Reward) (pd : PurchaseDetails)
    (hper : r.capPeriod ∉ (["quarterly", "annual", "monthly", "statement"] : List String)) :
    (∀ (ps : List Payment) (cid : ℚ) (b : Bool),
        getSpendingByCardAndPeriod now ps cid r.capPeriod b = 0)
    ∧ (0 < r.spendingCap → methodCompatible r pd = true → candidateCond r pd = true →
        ∃ opt, evalReward now payments card r pd = some opt
          ∧ opt.capStatus = CapStatus.remaining r.spendingCap) := by
  simp only [List.mem_cons, List.not_mem_nil, or_false, not_or] at hper
  have hzero : ∀ (ps : List Payment) (cid : ℚ) (b : Bool),
      getSpendingByCardAndPeriod now ps cid r.capPeriod b = 0 := by
    intro ps cid b
    unfold getSpendingByCardAndPeriod
    simp [hper.1, hper.2.1, hper.2.2.1, hper.2.2.2]
  refine ⟨hzero, ?_⟩
  intro hcap hm hc
  unfold evalReward
  rw [hm, hc]
  simp only [Bool.not_true, Bool.false_eq_true, if_false]
  have hne : r.spendingCap ≠ 0 := ne_of_gt hcap
  have hts : tierSpent now payments card r = 0 := by
    rw [tierSpent_eq, hzero]
  rw [if_pos hne, hts, sub_zero]
  rw [if_neg (not_le.mpr hcap)]
  by_cases hlt : r.spendingCap < pd.amount
  · rw [if_pos hlt]
    exact ⟨_, rfl, rfl⟩
  · rw [if_neg hlt]
    exact ⟨_, rfl, rfl⟩

unseal Rat.add Rat.mul Rat.sub Rat.inv in
/-- Witness for C10: with `capPeriod: "none"` a same-month payment is
ignored and a 500-cap tier still produces an option showing the full cap
remaining. -/
theorem unrecognized_capPeriod_zero_spend_witness :
    getSpendingByCardAndPeriod ⟨2026, 9, 20⟩
        [{ cardId := 7, amount := 999, date := ⟨2026, 9, 5⟩ }] 7 "none" false = 0
    ∧ (evalReward ⟨2026, 9, 20⟩
        [{ cardId := 7, amount := 999, date := ⟨2026, 9, 5⟩ }]
        c10Card c10Tier c10Purchase).map (fun o => o.capStatus)
      = some (CapStatus.remaining 500) := by
  have h := unrecognized_capPeriod_zero_spend ⟨2026, 9, 20⟩
    [{ cardId := 7, amount := 999, date := ⟨2026, 9, 5⟩ }] c10Card c10Tier c10Purchase
    (by decide)
  refine ⟨h.1 _ _ _, ?_⟩
  obtain ⟨opt, heq, hcap⟩ := h.2 (by norm_num [c10Tier]) (by decide) (by decide)
  rw [heq]
  simpa [c10Tier] using hcap

end OptimalSwipe
